import Mathlib

/-!
Verification of the role-based authorization and credential-lifecycle core of the
CW2_M01069036_CST1510 dashboard (files `app/services/auth_manager.py`,
`app/services/database_manager.py`, `app/models/user.py`).

The embedding models the `users` table of the SQLite store as a list of rows, the
bcrypt digest as a pair of a per-call-fresh salt and the hashed plaintext (the
functional contract of bcrypt: `checkpw p d` succeeds exactly when `d` was produced
by `hashpw` from `p`; distinct calls use distinct salts), and each `AuthManager`
method as a state-passing function over that store.
-/

/-- Functional model of a bcrypt digest: `bcrypt.hashpw(p, gensalt())` produces a
digest that records the (random, per-call-fresh) salt and verifies exactly against
the plaintext `p`. -/
structure Digest where
  salt : Nat
  pw : String
deriving DecidableEq, Repr

/-- `AuthManager._hash_password` seen functionally: hashing plaintext `p` with a
fresh salt `s` (`bcrypt.gensalt()` then `bcrypt.hashpw`). -/
def hashpw (p : String) (s : Nat) : Digest := ⟨s, p⟩

/-- `AuthManager._verify_password` / `bcrypt.checkpw`: a digest verifies against
exactly the plaintext it was produced from. -/
def checkpw (plain : String) (d : Digest) : Bool := plain == d.pw

/-- One row of the `users` table (`id, username, password_hash, role`), as created
by `schema.py` and written by `AuthManager.register_user`. -/
structure UserRow where
  id : Nat
  username : String
  password_hash : Digest
  role : String
deriving DecidableEq, Repr

/-- State of the store plus the entropy source: the rows of the `users` table, the
next autoincrement id, and the next fresh bcrypt salt. -/
structure DBState where
  users : List UserRow
  nextId : Nat
  nextSalt : Nat
deriving DecidableEq, Repr

/-- `DatabaseManager.fetch_one` on `SELECT ... FROM users WHERE username = ?`:
the first row with exactly that username, or `none`. -/
def findUser (st : DBState) (username : String) : Option UserRow :=
  st.users.find? (fun r => r.username == username)

/-- `AuthManager._hash_password` as a state transformer: consumes one fresh salt. -/
def hash_password (st : DBState) (password : String) : Digest × DBState :=
  (hashpw password st.nextSalt, { st with nextSalt := st.nextSalt + 1 })

/-- Python `str.lower()` on the ASCII strings this application uses: lowercase
every character. -/
def strLower (s : String) : String := ⟨s.data.map Char.toLower⟩

/-- The `ROLE_PERMISSIONS` class dictionary of `app/models/user.py`, with the
`dict.get(role, [])` default merged in: the allowed-domain list for a role, `[]`
for any role not among the four keys. -/
def ROLE_PERMISSIONS (role : String) : List String :=
  if role = "cybersecurity" then ["cybersecurity", "ai_assistant"]
  else if role = "datascience" then ["datascience", "ai_assistant"]
  else if role = "itoperations" then ["itoperations", "ai_assistant"]
  else if role = "admin" then
    ["cybersecurity", "datascience", "itoperations", "ai_assistant", "admin_panel"]
  else []

/-- The `User` model of `app/models/user.py`: username, stored digest, role. The
constructor lowercases the role (`self.__role = role.lower()`), which `User.make`
mirrors. -/
structure User where
  username : String
  password_hash : Digest
  role : String
deriving DecidableEq, Repr

/-- `User.__init__`: stores the username and digest verbatim and the role
lowercased. -/
def User.make (username : String) (password_hash : Digest) (role : String) : User :=
  ⟨username, password_hash, strLower role⟩

/-- `User.get_username`. -/
def User.get_username (u : User) : String := u.username

/-- `User.get_role`. -/
def User.get_role (u : User) : String := u.role

/-- `User.get_password_hash`. -/
def User.get_password_hash (u : User) : Digest := u.password_hash

/-- `User.can_access_domain`: membership of the lowercased domain in the
`ROLE_PERMISSIONS` entry for the user's (already lowercased) role. -/
def User.can_access_domain (u : User) (domain : String) : Bool :=
  (ROLE_PERMISSIONS u.role).contains (strLower domain)

/-- `User.get_allowed_domains`: the `ROLE_PERMISSIONS` entry for the user's role,
`[]` for an unknown role. -/
def User.get_allowed_domains (u : User) : List String :=
  ROLE_PERMISSIONS u.role

/-- `User.is_admin`. -/
def User.is_admin (u : User) : Bool := u.role == "admin"

/-- `AuthManager.register_user`: validate (non-empty fields, password length at
least 8), check duplicates via `fetch_one`, hash, insert. Returns the
`(success, message)` pair of the source together with the resulting store. -/
def register_user (st : DBState) (username password role : String) :
    (Bool × String) × DBState :=
  if username = "" ∨ password = "" then
    ((false, "Username and password cannot be empty"), st)
  else if password.length < 8 then
    ((false, "Password must be at least 8 characters long"), st)
  else
    match findUser st username with
    | some _ =>
        ((false, "Username \x27" ++ username ++ "\x27 already exists"), st)
    | none =>
        let (digest, st1) := hash_password st password
        let row : UserRow := ⟨st1.nextId, username, digest, role⟩
        ((true, "User \x27" ++ username ++ "\x27 registered successfully"),
         { st1 with users := st1.users ++ [row], nextId := st1.nextId + 1 })

/-- `AuthManager.register_user` called without an explicit role argument: the
Python default is `role = "user"`. -/
def register_user_default (st : DBState) (username password : String) :
    (Bool × String) × DBState :=
  register_user st username password "user"

/-- `AuthManager.login_user`: validate non-empty fields, fetch the row, verify
the digest, construct the session `User`. Read-only: the store is unchanged. -/
def login_user (st : DBState) (username password : String) :
    Bool × Option User × String :=
  if username = "" ∨ password = "" then
    (false, none, "Username and password cannot be empty")
  else
    match findUser st username with
    | none => (false, none, "Invalid username or password")
    | some row =>
        if !(checkpw password row.password_hash) then
          (false, none, "Invalid username or password")
        else
          (true, some (User.make row.username row.password_hash row.role),
           "Welcome back, " ++ username ++ "!")

/-- `AuthManager.get_user_by_username`: fetch the row and wrap it as a `User`,
or `none` when no row exists. -/
def get_user_by_username (st : DBState) (username : String) : Option User :=
  match findUser st username with
  | none => none
  | some row => some (User.make row.username row.password_hash row.role)

/-- `AuthManager.change_password`: re-run the full `login_user` verification on
the old password, then check the new password's length, then hash and UPDATE the
stored digest. -/
def change_password (st : DBState) (username old_password new_password : String) :
    (Bool × String) × DBState :=
  let res := login_user st username old_password
  if !res.1 then
    ((false, "Current password is incorrect"), st)
  else if new_password.length < 8 then
    ((false, "New password must be at least 8 characters long"), st)
  else
    let (digest, st1) := hash_password st new_password
    ((true, "Password changed successfully"),
     { st1 with
        users := st1.users.map (fun r =>
          if r.username == username then { r with password_hash := digest } else r) })

/-- The empty store with initial id and salt counters. -/
def emptyDB : DBState := ⟨[], 1, 0⟩

/-- A password of length at least 8 is non-empty. -/
lemma ne_empty_of_eight_le {P : String} (h : 8 ≤ P.length) : P ≠ "" := by
  intro hP
  rw [hP] at h
  simp at h

/-- `find?` skips over a prefix on which it returns `none`. -/
lemma find?_append_of_none {α : Type} (p : α → Bool) {l₁ : List α} (l₂ : List α)
    (h : l₁.find? p = none) : (l₁ ++ l₂).find? p = l₂.find? p := by
  induction l₁ with
  | nil => simp
  | cons a t ih =>
    rw [List.cons_append]
    cases hpa : p a with
    | true =>
      rw [List.find?_cons_of_pos _ hpa] at h
      cases h
    | false =>
      rw [List.find?_cons_of_neg _ (by simp [hpa])] at h
      rw [List.find?_cons_of_neg _ (by simp [hpa])]
      exact ih h

/-- Shape of a successful registration: the validations pass, the duplicate check
finds nothing, and the new row is appended with a fresh salt and the next id. -/
lemma register_user_success (st : DBState) (u P r : String)
    (hu : u ≠ "") (hP : 8 ≤ P.length) (hfresh : findUser st u = none) :
    register_user st u P r =
      ((true, "User \x27" ++ u ++ "\x27 registered successfully"),
       ⟨st.users ++ [⟨st.nextId, u, hashpw P st.nextSalt, r⟩],
        st.nextId + 1, st.nextSalt + 1⟩) := by
  have hPne : P ≠ "" := ne_empty_of_eight_le hP
  unfold register_user
  rw [if_neg (by simp [hu, hPne]), if_neg (by omega), hfresh]
  rfl

/-- After a successful registration of `u`, looking `u` up returns exactly the
row just inserted. -/
lemma findUser_after_register (st : DBState) (u P r : String)
    (hu : u ≠ "") (hP : 8 ≤ P.length) (hfresh : findUser st u = none) :
    findUser (register_user st u P r).2 u =
      some ⟨st.nextId, u, hashpw P st.nextSalt, r⟩ := by
  rw [register_user_success st u P r hu hP hfresh]
  unfold findUser at hfresh ⊢
  rw [find?_append_of_none _ _ hfresh]
  simp [List.find?]

/-- Shape of a successful login when the stored row is known and verifies. -/
lemma login_user_found (st : DBState) (u P : String) (row : UserRow)
    (hu : u ≠ "") (hP : P ≠ "") (hfind : findUser st u = some row)
    (hck : checkpw P row.password_hash = true) :
    login_user st u P =
      (true, some (User.make row.username row.password_hash row.role),
       "Welcome back, " ++ u ++ "!") := by
  unfold login_user
  rw [if_neg (by simp [hu, hP]), hfind]
  simp [hck]

/-- C1 fails as stated: (i) with the empty username (which is "not already
registered") the registration is rejected, so the round trip does not succeed;
(ii) registering with role "Admin" and logging in yields a principal whose
role() is the lowercased "admin", not the role argument "Admin". -/
theorem register_login_roundtrip_cex :
    (register_user emptyDB "" "12345678" "cybersecurity").1.1 = false ∧
    Option.map User.get_role
      (login_user (register_user emptyDB "alice" "Password1" "Admin").2
        "alice" "Password1").2.1 = some "admin" ∧
    ("admin" : String) ≠ "Admin" := by decide

/-- C1 (amended): for every non-empty username `u` not already registered, every
password `P` with length at least 8, and every role `r`, `register_user`
followed immediately by `login_user` succeeds and returns a principal whose
`get_role` is the lowercased `r`. -/
theorem register_login_roundtrip (st : DBState) (u P r : String)
    (hu : u ≠ "") (hP : 8 ≤ P.length) (hfresh : findUser st u = none) :
    (register_user st u P r).1.1 = true ∧
    (login_user (register_user st u P r).2 u P).1 = true ∧
    Option.map User.get_role (login_user (register_user st u P r).2 u P).2.1 =
      some (strLower r) := by
  have hPne := ne_empty_of_eight_le hP
  have hfind := findUser_after_register st u P r hu hP hfresh
  have hck : checkpw P (hashpw P st.nextSalt) = true := by simp [checkpw, hashpw]
  have hlog := login_user_found (register_user st u P r).2 u P _ hu hPne hfind hck
  refine ⟨?_, ?_, ?_⟩
  · rw [register_user_success st u P r hu hP hfresh]
  · rw [hlog]
  · rw [hlog]
    rfl

/-- Concrete instance of the amended C1 at the fresh user `bob`. -/
theorem register_login_roundtrip_witness :
    "bob" ≠ "" ∧ 8 ≤ ("Password1" : String).length ∧ findUser emptyDB "bob" = none ∧
    ((register_user emptyDB "bob" "Password1" "cybersecurity").1.1 = true ∧
     (login_user (register_user emptyDB "bob" "Password1" "cybersecurity").2
        "bob" "Password1").1 = true ∧
     Option.map User.get_role
       (login_user (register_user emptyDB "bob" "Password1" "cybersecurity").2
         "bob" "Password1").2.1 = some (strLower "cybersecurity")) :=
  ⟨by decide, by decide, by decide,
   register_login_roundtrip emptyDB "bob" "Password1" "cybersecurity"
     (by decide) (by decide) (by decide)⟩

/-- C2 fails as stated: the admin principal is granted the domain "Cybersecurity"
even though that exact string is not a member of the table entry for its role —
`can_access_domain` compares the lowercased domain, not the argument itself. -/
theorem can_access_domain_cex :
    (User.make "root" (hashpw "AdminPass123!" 0) "admin").can_access_domain
      "Cybersecurity" = true ∧
    "Cybersecurity" ∉
      ROLE_PERMISSIONS
        (User.make "root" (hashpw "AdminPass123!" 0) "admin").get_role := by decide

/-- C2 (amended): `can_access_domain` returns true exactly when the lowercased
domain is a member of the static role-permission entry for the principal's role;
any role outside the four table keys has the empty entry, so every domain is
refused (fail-closed); in particular role "itoperations" is refused domain
"cybersecurity" and role "admin" is granted it. -/
theorem can_access_domain_spec (u : User) (d r : String)
    (h1 : r ≠ "cybersecurity") (h2 : r ≠ "datascience")
    (h3 : r ≠ "itoperations") (h4 : r ≠ "admin") :
    (u.can_access_domain d = true ↔ strLower d ∈ ROLE_PERMISSIONS u.get_role) ∧
    ROLE_PERMISSIONS r = [] ∧
    (User.make "eng" (hashpw "p" 0) "itoperations").can_access_domain
      "cybersecurity" = false ∧
    (User.make "root" (hashpw "p" 0) "admin").can_access_domain
      "cybersecurity" = true := by
  refine ⟨?_, ?_, by decide, by decide⟩
  · simp [User.can_access_domain, User.get_role]
  · simp [ROLE_PERMISSIONS, h1, h2, h3, h4]

/-- Concrete instance of the amended C2 at the unknown role "user". -/
theorem can_access_domain_spec_witness :
    "user" ≠ "cybersecurity" ∧ "user" ≠ "datascience" ∧
    "user" ≠ "itoperations" ∧ "user" ≠ "admin" ∧
    (((User.make "dana" (hashpw "p" 0) "datascience").can_access_domain
        "ai_assistant" = true ↔
      strLower "ai_assistant" ∈
        ROLE_PERMISSIONS (User.make "dana" (hashpw "p" 0) "datascience").get_role) ∧
     ROLE_PERMISSIONS "user" = [] ∧
     (User.make "eng" (hashpw "p" 0) "itoperations").can_access_domain
       "cybersecurity" = false ∧
     (User.make "root" (hashpw "p" 0) "admin").can_access_domain
       "cybersecurity" = true) :=
  ⟨by decide, by decide, by decide, by decide,
   can_access_domain_spec (User.make "dana" (hashpw "p" 0) "datascience")
     "ai_assistant" "user" (by decide) (by decide) (by decide) (by decide)⟩

/-- C3 fails as stated: self-registration with role "admin" succeeds and the
record is inserted with that role — `register_user` performs no role check. -/
theorem register_role_unchecked_cex :
    (register_user emptyDB "mallory" "Password123" "admin").1.1 = true ∧
    Option.map UserRow.role
      (findUser (register_user emptyDB "mallory" "Password123" "admin").2
        "mallory") = some "admin" := by decide

/-- C3 (amended): `register_user` performs no validation of the role argument at
all — for a fresh non-empty username and a password of length at least 8, every
role string (including "admin" and strings outside the known set) is accepted
and stored verbatim; the three-role restriction exists only in the registration
form of the UI, whose selectbox offers exactly cybersecurity, datascience and
itoperations. -/
theorem register_role_unchecked (st : DBState) (u P r : String)
    (hu : u ≠ "") (hP : 8 ≤ P.length) (hfresh : findUser st u = none) :
    (register_user st u P r).1.1 = true ∧
    Option.map UserRow.role (findUser (register_user st u P r).2 u) = some r := by
  refine ⟨?_, ?_⟩
  · rw [register_user_success st u P r hu hP hfresh]
  · rw [findUser_after_register st u P r hu hP hfresh]
    rfl

/-- Concrete instance of the amended C3: the role "admin" is accepted. -/
theorem register_role_unchecked_witness :
    "eve" ≠ "" ∧ 8 ≤ ("Password123" : String).length ∧
    findUser emptyDB "eve" = none ∧
    ((register_user emptyDB "eve" "Password123" "admin").1.1 = true ∧
     Option.map UserRow.role
       (findUser (register_user emptyDB "eve" "Password123" "admin").2 "eve") =
       some "admin") :=
  ⟨by decide, by decide, by decide,
   register_role_unchecked emptyDB "eve" "Password123" "admin"
     (by decide) (by decide) (by decide)⟩

/-- A store holding the single registered user alice with password "Password1". -/
def demoStore : DBState :=
  (register_user emptyDB "alice" "Password1" "cybersecurity").2

/-- C4: whenever `login_user` fails it returns no session principal, and the
failure triple is fully determined by whether an input field was empty: for
non-empty inputs every failure — username absent or digest mismatch — is the
identical triple `(false, none, "Invalid username or password")`. -/
theorem login_failure_uniform (st : DBState) (u p : String)
    (h : (login_user st u p).1 = false) :
    (login_user st u p).2.1 = none ∧
    login_user st u p =
      (false, none,
       if u = "" ∨ p = "" then "Username and password cannot be empty"
       else "Invalid username or password") := by
  have key : login_user st u p =
      (false, none,
       if u = "" ∨ p = "" then "Username and password cannot be empty"
       else "Invalid username or password") := by
    by_cases hup : u = "" ∨ p = ""
    · rw [if_pos hup]
      unfold login_user
      rw [if_pos hup]
    · rw [if_neg hup]
      unfold login_user at h ⊢
      rw [if_neg hup] at h ⊢
      cases hfind : findUser st u with
      | none => rfl
      | some row =>
        cases hck : checkpw p row.password_hash with
        | false => simp [hck]
        | true =>
          rw [hfind] at h
          simp [hck] at h
  exact ⟨by rw [key], key⟩

/-- Concrete instance of C4: a login for the absent user bob fails with the
generic triple. -/
theorem login_failure_uniform_witness :
    (login_user demoStore "bob" "pw123456").1 = false ∧
    ((login_user demoStore "bob" "pw123456").2.1 = none ∧
     login_user demoStore "bob" "pw123456" =
       (false, none,
        if ("bob" : String) = "" ∨ ("pw123456" : String) = ""
        then "Username and password cannot be empty"
        else "Invalid username or password")) :=
  ⟨by decide, login_failure_uniform demoStore "bob" "pw123456" (by decide)⟩

/-- Shape of a duplicate registration: validations pass but the duplicate check
finds a row, so the call fails with the duplicate message and leaves the store
untouched (the hash is never computed, so not even the salt counter moves). -/
lemma register_user_duplicate (st : DBState) (u P r : String)
    (hu : u ≠ "") (hP : 8 ≤ P.length) (row : UserRow)
    (hfind : findUser st u = some row) :
    register_user st u P r =
      ((false, "Username \x27" ++ u ++ "\x27 already exists"), st) := by
  have hPne := ne_empty_of_eight_le hP
  unfold register_user
  rw [if_neg (by simp [hu, hPne]), if_neg (by omega), hfind]

/-- C5: registering the same username twice (valid password and role, fresh the
first time) succeeds once, fails the second time with the duplicate-identity
message, changes no stored state on the second call, and the stored digest after
both calls is the digest produced by the first call. -/
theorem register_duplicate_rejected (st : DBState) (u P r : String)
    (hu : u ≠ "") (hP : 8 ≤ P.length) (hfresh : findUser st u = none) :
    (register_user st u P r).1.1 = true ∧
    (register_user (register_user st u P r).2 u P r).1 =
      (false, "Username \x27" ++ u ++ "\x27 already exists") ∧
    (register_user (register_user st u P r).2 u P r).2 =
      (register_user st u P r).2 ∧
    Option.map UserRow.password_hash
      (findUser (register_user (register_user st u P r).2 u P r).2 u) =
      some (hashpw P st.nextSalt) := by
  have hfind := findUser_after_register st u P r hu hP hfresh
  have hsecond := register_user_duplicate (register_user st u P r).2 u P r hu hP _ hfind
  refine ⟨?_, ?_, ?_, ?_⟩
  · rw [register_user_success st u P r hu hP hfresh]
  · rw [hsecond]
  · rw [hsecond]
  · rw [hsecond]
    rw [hfind]
    rfl

/-- Concrete instance of C5 at alice, run from the empty store. -/
theorem register_duplicate_rejected_witness :
    "alice" ≠ "" ∧ 8 ≤ ("ValidPass123" : String).length ∧
    findUser emptyDB "alice" = none ∧
    ((register_user emptyDB "alice" "ValidPass123" "cybersecurity").1.1 = true ∧
     (register_user (register_user emptyDB "alice" "ValidPass123" "cybersecurity").2
        "alice" "ValidPass123" "cybersecurity").1 =
       (false, "Username \x27" ++ "alice" ++ "\x27 already exists") ∧
     (register_user (register_user emptyDB "alice" "ValidPass123" "cybersecurity").2
        "alice" "ValidPass123" "cybersecurity").2 =
       (register_user emptyDB "alice" "ValidPass123" "cybersecurity").2 ∧
     Option.map UserRow.password_hash
       (findUser
         (register_user (register_user emptyDB "alice" "ValidPass123" "cybersecurity").2
           "alice" "ValidPass123" "cybersecurity").2 "alice") =
       some (hashpw "ValidPass123" emptyDB.nextSalt)) :=
  ⟨by decide, by decide, by decide,
   register_duplicate_rejected emptyDB "alice" "ValidPass123" "cybersecurity"
     (by decide) (by decide) (by decide)⟩

/-- C6: `change_password` runs the full `login_user` verification on the old
password before anything else and rejects a new password shorter than 8
characters; on either failure the store (hence the stored digest for `u`) is
unchanged, every later login behaves exactly as before the call, and the failure
message is the old-password one whenever the verification failed (even if the
new password is also too short). -/
theorem change_password_gate (st : DBState) (u old_pw new_pw orig : String)
    (h : (login_user st u old_pw).1 = false ∨ new_pw.length < 8) :
    (change_password st u old_pw new_pw).2 = st ∧
    (change_password st u old_pw new_pw).1.1 = false ∧
    (change_password st u old_pw new_pw).1.2 =
      (if (login_user st u old_pw).1 = false then "Current password is incorrect"
       else "New password must be at least 8 characters long") ∧
    login_user (change_password st u old_pw new_pw).2 u orig =
      login_user st u orig := by
  have key : change_password st u old_pw new_pw =
      ((false,
        if (login_user st u old_pw).1 = false then "Current password is incorrect"
        else "New password must be at least 8 characters long"), st) := by
    unfold change_password
    cases hl : (login_user st u old_pw).1 with
    | false => simp [hl]
    | true =>
      have hlen : new_pw.length < 8 := by
        rcases h with h | h
        · rw [hl] at h
          cases h
        · exact h
      simp [hl, hlen]
  rw [key]
  exact ⟨rfl, rfl, rfl, rfl⟩

/-- Concrete instance of C6: a wrong old password leaves alice's digest intact
and her original password still logs in. -/
theorem change_password_gate_witness :
    ((login_user demoStore "alice" "wrongpass").1 = false ∨
      ("NewPass123" : String).length < 8) ∧
    ((change_password demoStore "alice" "wrongpass" "NewPass123").2 = demoStore ∧
     (change_password demoStore "alice" "wrongpass" "NewPass123").1.1 = false ∧
     (change_password demoStore "alice" "wrongpass" "NewPass123").1.2 =
       (if (login_user demoStore "alice" "wrongpass").1 = false
        then "Current password is incorrect"
        else "New password must be at least 8 characters long") ∧
     login_user (change_password demoStore "alice" "wrongpass" "NewPass123").2
       "alice" "Password1" = login_user demoStore "alice" "Password1") :=
  ⟨Or.inl (by decide),
   change_password_gate demoStore "alice" "wrongpass" "NewPass123" "Password1"
     (Or.inl (by decide))⟩

/-- Shape of a registration with a non-empty but too-short password: rejected by
the length validation, before the duplicate query, with the store untouched. -/
lemma register_user_short (st : DBState) (u P r : String)
    (hu : u ≠ "") (hPne : P ≠ "") (hlen : P.length < 8) :
    register_user st u P r =
      ((false, "Password must be at least 8 characters long"), st) := by
  unfold register_user
  rw [if_neg (by simp [hu, hPne]), if_pos hlen]

/-- C7: registering with a 7-character password fails with the length-validation
message and leaves the store untouched — and the outcome does not depend on the
store at all, since the check precedes any store access — while an 8-character
password is accepted for a fresh non-empty username. -/
theorem register_length_boundary (st st2 : DBState) (u r P7 P8 : String)
    (hu : u ≠ "") (h7 : P7.length = 7) (h8 : P8.length = 8)
    (hfresh : findUser st u = none) :
    register_user st u P7 r =
      ((false, "Password must be at least 8 characters long"), st) ∧
    (register_user st2 u P7 r).1 = (register_user st u P7 r).1 ∧
    (register_user st u P8 r).1.1 = true := by
  have hP7ne : P7 ≠ "" := by
    intro hh
    rw [hh] at h7
    simp at h7
  have hshort := register_user_short st u P7 r hu hP7ne (by omega)
  refine ⟨hshort, ?_, ?_⟩
  · rw [hshort, register_user_short st2 u P7 r hu hP7ne (by omega)]
  · rw [register_user_success st u P8 r hu (by omega) hfresh]

/-- Concrete instance of C7 at the boundary passwords "1234567" and "12345678". -/
theorem register_length_boundary_witness :
    "carol" ≠ "" ∧ ("1234567" : String).length = 7 ∧
    ("12345678" : String).length = 8 ∧ findUser emptyDB "carol" = none ∧
    (register_user emptyDB "carol" "1234567" "datascience" =
       ((false, "Password must be at least 8 characters long"), emptyDB) ∧
     (register_user demoStore "carol" "1234567" "datascience").1 =
       (register_user emptyDB "carol" "1234567" "datascience").1 ∧
     (register_user emptyDB "carol" "12345678" "datascience").1.1 = true) :=
  ⟨by decide, by decide, by decide, by decide,
   register_length_boundary emptyDB demoStore "carol" "datascience"
     "1234567" "12345678" (by decide) (by decide) (by decide) (by decide)⟩

/-- C8: looking up a username with no stored record returns the explicit
not-found result `none` — no error path exists. -/
theorem get_user_by_username_missing (st : DBState) (u : String)
    (h : findUser st u = none) : get_user_by_username st u = none := by
  unfold get_user_by_username
  rw [h]

/-- Concrete instance of C8 at a username absent from the demo store. -/
theorem get_user_by_username_missing_witness :
    findUser demoStore "ghost" = none ∧
    get_user_by_username demoStore "ghost" = none :=
  ⟨by decide, get_user_by_username_missing demoStore "ghost" (by decide)⟩

/-- C9: a user registered through `register_user` without an explicit role gets
the Python default role "user"; that role is not a key of `ROLE_PERMISSIONS`,
so the resulting principal is denied every domain and its allowed-domain list is
empty. -/
theorem register_default_role_powerless (st : DBState) (u P d : String)
    (hu : u ≠ "") (hP : 8 ≤ P.length) (hfresh : findUser st u = none) :
    (register_user_default st u P).1.1 = true ∧
    Option.map UserRow.role (findUser (register_user_default st u P).2 u) =
      some "user" ∧
    ROLE_PERMISSIONS "user" = [] ∧
    Option.map (fun usr => usr.can_access_domain d)
      (get_user_by_username (register_user_default st u P).2 u) = some false ∧
    Option.map User.get_allowed_domains
      (get_user_by_username (register_user_default st u P).2 u) = some [] := by
  have hfind := findUser_after_register st u P "user" hu hP hfresh
  have hlow : strLower "user" = "user" := by decide
  refine ⟨?_, ?_, by decide, ?_, ?_⟩
  · unfold register_user_default
    rw [register_user_success st u P "user" hu hP hfresh]
  · unfold register_user_default
    rw [hfind]
    rfl
  · unfold register_user_default get_user_by_username
    rw [hfind]
    simp [User.make, User.can_access_domain, hlow, ROLE_PERMISSIONS]
  · unfold register_user_default get_user_by_username
    rw [hfind]
    simp [User.make, User.get_allowed_domains, hlow, ROLE_PERMISSIONS]

/-- Concrete instance of C9 at the fresh user dave and the domain
"cybersecurity". -/
theorem register_default_role_powerless_witness :
    "dave" ≠ "" ∧ 8 ≤ ("DavePass123" : String).length ∧
    findUser emptyDB "dave" = none ∧
    ((register_user_default emptyDB "dave" "DavePass123").1.1 = true ∧
     Option.map UserRow.role
       (findUser (register_user_default emptyDB "dave" "DavePass123").2 "dave") =
       some "user" ∧
     ROLE_PERMISSIONS "user" = [] ∧
     Option.map (fun usr => usr.can_access_domain "cybersecurity")
       (get_user_by_username (register_user_default emptyDB "dave" "DavePass123").2
         "dave") = some false ∧
     Option.map User.get_allowed_domains
       (get_user_by_username (register_user_default emptyDB "dave" "DavePass123").2
         "dave") = some []) :=
  ⟨by decide, by decide, by decide,
   register_default_role_powerless emptyDB "dave" "DavePass123" "cybersecurity"
     (by decide) (by decide) (by decide)⟩

/-- C10: with an empty username or password, `login_user` fails with the
field-validation triple, the result does not depend on the store (no store
access), and the message differs from the generic invalid-credentials one. -/
theorem login_empty_fields (st st2 : DBState) (u p : String)
    (h : u = "" ∨ p = "") :
    login_user st u p =
      (false, none, "Username and password cannot be empty") ∧
    login_user st u p = login_user st2 u p ∧
    ("Username and password cannot be empty" : String) ≠
      "Invalid username or password" := by
  have k : ∀ s : DBState,
      login_user s u p =
        (false, none, "Username and password cannot be empty") := by
    intro s
    unfold login_user
    rw [if_pos h]
  refine ⟨k st, ?_, by decide⟩
  rw [k st, k st2]

/-- Concrete instance of C10 at an empty username. -/
theorem login_empty_fields_witness :
    (("" : String) = "" ∨ ("secretpw" : String) = "") ∧
    (login_user demoStore "" "secretpw" =
       (false, none, "Username and password cannot be empty") ∧
     login_user demoStore "" "secretpw" = login_user emptyDB "" "secretpw" ∧
     ("Username and password cannot be empty" : String) ≠
       "Invalid username or password") :=
  ⟨Or.inl rfl,
   login_empty_fields demoStore emptyDB "" "secretpw" (Or.inl rfl)⟩
